import Mathlib

/-!
Verification of the HTX_POS transactional point-of-sale ledger core
(`src/src-tauri/src/lib.rs`), shallowly embedded in Lean 4.

Embedding conventions:
* Rust `i64` is modelled as `ℤ` (no arithmetic in the modelled code paths
  comes close to overflow; casts are modelled as exact).
* Rust `f64` is modelled as `ℚ`, restricted to the finite values (every
  `ℚ` is finite, so `is_finite()` is constantly true in the model).
* `rusqlite` tables are modelled as lists of row structures kept in
  rowid-ascending insertion order, with a fresh-id counter, so
  `ORDER BY id ASC` coincides with list order and `last_insert_rowid`
  is the counter value used by the insert.
* A SQL transaction is modelled operationally: writes go to a pending
  copy of the database; an injected failure point (`FailPoint`) makes the
  corresponding statement fail, in which case the durable state is the
  original database (rusqlite rolls an uncommitted transaction back on
  drop); only a completed commit publishes the pending state.
* Fallible Rust functions returning `Result<T, String>` become
  `Except String T`.
-/

namespace HTXPos

/-- `MONEY_ROUNDING_MODE` constant from lib.rs (line 6): `"floor"`. -/
def MONEY_ROUNDING_MODE : String := "floor"

/-- Rust `f64::round` (round half away from zero), on the rational model
of `f64`. -/
def rustRound (x : ℚ) : ℤ :=
  if 0 ≤ x then ⌊x + 1/2⌋ else ⌈x - 1/2⌉

/-- `round_money` from lib.rs (lines 210–215):
`value.round().max(0.0) as i64` under the `"round"` policy, else
`value.floor().max(0.0) as i64`.  The `f64 → i64` cast is modelled as
exact (inputs stay far below `2^63` in this application). -/
def round_money (value : ℚ) : ℤ :=
  if MONEY_ROUNDING_MODE = "round" then max (rustRound value) 0
  else max ⌊value⌋ 0

/-- Rust `str::trim`: removes leading and trailing whitespace.  Modelled
by structural recursion over the character list (Lean's `String.trim`
is not kernel-reducible); `Char.isWhitespace` models Rust's
`char::is_whitespace` on the character set this application uses. -/
def rustTrim (s : String) : String :=
  ⟨((s.data.dropWhile Char.isWhitespace).reverse.dropWhile Char.isWhitespace).reverse⟩

/-- `PaymentItemInput` from lib.rs (lines 90–102): one raw payment line
as supplied by the caller. -/
structure PaymentItemInput where
  product_id : Option ℤ
  name : String
  quantity : ℚ
  base_unit_price : ℤ
  edited_unit_price : Option ℤ
  effective_unit_price : Option ℤ
  price : Option ℤ
  line_subtotal : Option ℤ
  line_discount : Option ℤ
deriving DecidableEq

/-- `NormalizedPaymentItem` from lib.rs (lines 104–114): the validator's
canonical output for one line. -/
structure NormalizedPaymentItem where
  product_id : Option ℤ
  name : String
  quantity_decimal : ℚ
  legacy_quantity : ℤ
  base_unit_price : ℤ
  edited_unit_price : Option ℤ
  effective_unit_price : ℤ
  line_subtotal : ℤ
  line_discount : ℤ
deriving DecidableEq

/-- The per-item body of the `for item in items` loop of
`normalize_payment_items` (lib.rs lines 649–691).  The Rust guard is
`!item.quantity.is_finite() || item.quantity <= 0.0`; on the rational
model of `f64` every value is finite, so the guard is `quantity ≤ 0`. -/
def normalizeItem (item : PaymentItemInput) : Except String NormalizedPaymentItem :=
  if item.quantity ≤ 0 then .error "Item quantity must be greater than 0"
  else
    let cleaned_name := rustTrim item.name
    if cleaned_name.isEmpty then .error "Item name cannot be empty"
    else if item.base_unit_price < 0 then .error "Base unit price cannot be negative"
    else
      let resolved_effective_price :=
        (item.effective_unit_price.or item.price).getD item.base_unit_price
      if resolved_effective_price < 0 then .error "Effective unit price cannot be negative"
      else
        let edited_price := item.edited_unit_price.filter (fun v => decide (0 ≤ v))
        let computed_subtotal := round_money ((resolved_effective_price : ℚ) * item.quantity)
        let line_subtotal := item.line_subtotal.getD computed_subtotal
        if line_subtotal < 0 then .error "Line subtotal cannot be negative"
        else
          let line_discount := item.line_discount.getD 0
          if line_discount < 0 then .error "Line discount cannot be negative"
          else
            let rounded_qty := rustRound item.quantity
            let legacy_quantity := if rounded_qty ≤ 0 then 1 else rounded_qty
            .ok { product_id := item.product_id
                  name := cleaned_name
                  quantity_decimal := item.quantity
                  legacy_quantity := legacy_quantity
                  base_unit_price := item.base_unit_price
                  edited_unit_price := edited_price
                  effective_unit_price := resolved_effective_price
                  line_subtotal := line_subtotal
                  line_discount := line_discount }

/-- The accumulation loop of `normalize_payment_items`: items are
processed left to right, stopping at the first failing item. -/
def normalizeItemsLoop : List PaymentItemInput → Except String (List NormalizedPaymentItem)
  | [] => .ok []
  | item :: rest =>
      match normalizeItem item with
      | .error e => .error e
      | .ok n =>
        match normalizeItemsLoop rest with
        | .error e => .error e
        | .ok ns => .ok (n :: ns)

/-- `normalize_payment_items` from lib.rs (lines 644–693): rejects an
empty item list, then validates and canonicalizes each item in order. -/
def normalize_payment_items (items : List PaymentItemInput) :
    Except String (List NormalizedPaymentItem) :=
  if items.isEmpty then .error "Payment must contain at least one item"
  else normalizeItemsLoop items

/-- A stored `payment_items` row (schema at lib.rs lines 250–262): the
five late-added columns are nullable, hence `Option`. -/
structure PaymentItemRow where
  id : ℤ
  payment_id : ℤ
  product_id : Option ℤ
  name : String
  quantity : ℤ
  price : ℤ
  quantity_decimal : Option ℚ
  base_unit_price : Option ℤ
  edited_unit_price : Option ℤ
  line_subtotal : Option ℤ
  line_discount : Option ℤ
deriving DecidableEq

/-- `PaymentItemRecord` from lib.rs (lines 43–57): the hydrated line
item returned to the caller. -/
structure PaymentItemRecord where
  id : ℤ
  product_id : Option ℤ
  name : String
  quantity : ℤ
  price : ℤ
  quantity_decimal : Option ℚ
  base_unit_price : ℤ
  edited_unit_price : Option ℤ
  effective_unit_price : ℤ
  line_subtotal : ℤ
  line_discount : ℤ
deriving DecidableEq

/-- The row-hydration closure inside `fetch_payment_items`
(lib.rs lines 552–577): backfills each optional column absent in
storage from the legacy columns. -/
def hydrateItemRow (row : PaymentItemRow) : PaymentItemRecord :=
  let normalized_quantity := row.quantity_decimal.getD ((row.quantity : ℚ))
  let resolved_base_price := row.base_unit_price.getD row.price
  let subtotal_value :=
    row.line_subtotal.getD (round_money ((row.price : ℚ) * normalized_quantity))
  { id := row.id
    product_id := row.product_id
    name := row.name
    quantity := row.quantity
    price := row.price
    quantity_decimal := some normalized_quantity
    base_unit_price := resolved_base_price
    edited_unit_price := row.edited_unit_price
    effective_unit_price := row.price
    line_subtotal := subtotal_value
    line_discount := row.line_discount.getD 0 }

/-- A stored `payments` header row (schema at lib.rs lines 233–245),
matching the `PaymentRow` struct of lib.rs (lines 500–512). -/
structure PaymentRow where
  id : ℤ
  invoice_number : String
  cashier_name : String
  subtotal : ℤ
  tax : ℤ
  total : ℤ
  discount : ℤ
  paid_cash : ℤ
  change_due : ℤ
  note : Option String
  created_at : String
deriving DecidableEq

/-- `PaymentRecord` from lib.rs (lines 73–88): the hydrated aggregate
returned to the caller. -/
structure PaymentRecord where
  id : ℤ
  invoice_number : String
  cashier_name : String
  subtotal : ℤ
  tax : ℤ
  total : ℤ
  discount : ℤ
  paid_cash : ℤ
  change_due : ℤ
  note : Option String
  created_at : String
  items : List PaymentItemRecord
deriving DecidableEq

/-- The relevant durable database state: the `payments` and
`payment_items` tables (row lists in rowid order) together with the next
AUTOINCREMENT rowid of each. -/
structure DB where
  payments : List PaymentRow
  payment_items : List PaymentItemRow
  next_payment_id : ℤ
  next_item_id : ℤ
deriving DecidableEq

/-- Well-formedness of a database state: every stored rowid, and every
item's payment reference, is below the AUTOINCREMENT counter, as SQLite
guarantees for rows inserted through the modelled code. -/
def DB.WF (db : DB) : Prop :=
  (∀ r ∈ db.payments, r.id < db.next_payment_id) ∧
  (∀ r ∈ db.payment_items, r.payment_id < db.next_payment_id) ∧
  (∀ r ∈ db.payment_items, r.id < db.next_item_id)

instance (db : DB) : Decidable db.WF := by
  unfold DB.WF; infer_instance

/-- `fetch_payment_row` from lib.rs (lines 514–538): the `WHERE id = ?1`
single-row query on `payments`. -/
def fetch_payment_row (db : DB) (id : ℤ) : Except String PaymentRow :=
  match db.payments.find? (fun r => decide (r.id = id)) with
  | some r => .ok r
  | none => .error "Query returned no rows"

/-- `fetch_payment_items` from lib.rs (lines 540–582): selects the rows
with the given `payment_id` in `ORDER BY id ASC` (which is list order,
rows being stored in rowid order) and hydrates each. -/
def fetch_payment_items (db : DB) (payment_id : ℤ) : List PaymentItemRecord :=
  (db.payment_items.filter (fun r => decide (r.payment_id = payment_id))).map hydrateItemRow

/-- `hydrate_payment_record` from lib.rs (lines 584–600). -/
def hydrate_payment_record (db : DB) (row : PaymentRow) : PaymentRecord :=
  { id := row.id
    invoice_number := row.invoice_number
    cashier_name := row.cashier_name
    subtotal := row.subtotal
    tax := row.tax
    total := row.total
    discount := row.discount
    paid_cash := row.paid_cash
    change_due := row.change_due
    note := row.note
    created_at := row.created_at
    items := fetch_payment_items db row.id }

/-- `load_payment_by_id` from lib.rs (lines 695–698). -/
def load_payment_by_id (db : DB) (id : ℤ) : Except String PaymentRecord :=
  (fetch_payment_row db id).map (hydrate_payment_record db)

/-- `normalize_note` from lib.rs (lines 633–642). -/
def normalize_note (note : Option String) : Option String :=
  note.bind (fun value =>
    let trimmed := rustTrim value
    if trimmed.isEmpty then none else some trimmed)

/-- `CreatePaymentPayload` from lib.rs (lines 116–129). -/
structure CreatePaymentPayload where
  invoice_number : String
  cashier_name : String
  subtotal : ℤ
  tax : ℤ
  total : ℤ
  discount : ℤ
  paid_cash : ℤ
  change_due : ℤ
  note : Option String
  items : List PaymentItemInput
deriving DecidableEq

/-- An injectable storage-failure point inside the write transaction of
`create_payment`: the header `INSERT`, the k-th item `INSERT`, or the
`COMMIT`. -/
inductive FailPoint where
  | headerInsert : FailPoint
  | itemInsert : Nat → FailPoint
  | commit : FailPoint
deriving DecidableEq

/-- The `payment_items` row written for one normalized item by the item
`INSERT` of `create_payment` (lib.rs lines 758–780). -/
def itemRowOf (payment_id row_id : ℤ) (item : NormalizedPaymentItem) : PaymentItemRow :=
  { id := row_id
    payment_id := payment_id
    product_id := item.product_id
    name := item.name
    quantity := item.legacy_quantity
    price := item.effective_unit_price
    quantity_decimal := some item.quantity_decimal
    base_unit_price := some item.base_unit_price
    edited_unit_price := item.edited_unit_price
    line_subtotal := some item.line_subtotal
    line_discount := some item.line_discount }

/-- The rows appended to `payment_items` for a list of normalized items,
with consecutive fresh rowids starting at `row_id`. -/
def insertedRows (payment_id : ℤ) : ℤ → List NormalizedPaymentItem → List PaymentItemRow
  | _, [] => []
  | row_id, item :: rest =>
      itemRowOf payment_id row_id item :: insertedRows payment_id (row_id + 1) rest

/-- One item `INSERT` applied to the pending transaction state. -/
def insertItemRow (payment_id : ℤ) (item : NormalizedPaymentItem) (db : DB) : DB :=
  { db with
    payment_items := db.payment_items ++ [itemRowOf payment_id db.next_item_id item]
    next_item_id := db.next_item_id + 1 }

/-- The `for item in normalized_items` insert loop of `create_payment`
(lib.rs lines 758–780) on the pending transaction state; `k` is the index
of the next item, at which an injected `itemInsert` failure fires. -/
def insertItems (fail : Option FailPoint) (payment_id : ℤ) :
    List NormalizedPaymentItem → Nat → DB → Except String DB
  | [], _, db => .ok db
  | item :: rest, k, db =>
      if fail = some (.itemInsert k) then .error "storage failure"
      else insertItems fail payment_id rest (k + 1) (insertItemRow payment_id item db)

/-- The `payments` header row written by `create_payment`
(lib.rs lines 738–756); `created_at` takes the engine's current
timestamp `now` via the column default. -/
def headerRowOf (now : String) (payment_id : ℤ) (payload : CreatePaymentPayload) : PaymentRow :=
  { id := payment_id
    invoice_number := rustTrim payload.invoice_number
    cashier_name := rustTrim payload.cashier_name
    subtotal := payload.subtotal
    tax := payload.tax
    total := payload.total
    discount := payload.discount
    paid_cash := payload.paid_cash
    change_due := payload.change_due
    note := normalize_note payload.note
    created_at := now }

/-- The pending transaction state right after the header `INSERT` of
`create_payment`: the header row appended, the payment AUTOINCREMENT
counter advanced. -/
def pendingOf (now : String) (db : DB) (payload : CreatePaymentPayload) : DB :=
  { db with
    payments := db.payments ++ [headerRowOf now db.next_payment_id payload]
    next_payment_id := db.next_payment_id + 1 }

/-- `create_payment` from lib.rs (lines 709–783): validates and
normalizes the items, checks the trimmed invoice number and cashier
name, then inside one transaction inserts the header and every item and
commits, finally re-reading the aggregate.  `fail` injects a storage
failure at one transaction step; any failure leaves the durable state
(first component) at the original `db`, since rusqlite rolls back an
uncommitted transaction when it is dropped. -/
def create_payment (fail : Option FailPoint) (now : String) (db : DB)
    (payload : CreatePaymentPayload) : DB × Except String PaymentRecord :=
  match normalize_payment_items payload.items with
  | .error e => (db, .error e)
  | .ok normalized_items =>
    let cleaned_invoice := rustTrim payload.invoice_number
    if cleaned_invoice.isEmpty then (db, .error "Invoice number is required")
    else
      let cleaned_cashier := rustTrim payload.cashier_name
      if cleaned_cashier.isEmpty then (db, .error "Cashier name is required")
      else
        if fail = some .headerInsert then (db, .error "storage failure")
        else
          let payment_id := db.next_payment_id
          match insertItems fail payment_id normalized_items 0 (pendingOf now db payload) with
          | .error e => (db, .error e)
          | .ok populated =>
            if fail = some .commit then (db, .error "storage failure")
            else (populated, load_payment_by_id populated payment_id)

/-- The record `normalize_payment_items` pushes for an item that passes
every check (the success branch of the loop body, lib.rs lines 680–690),
written as a closed form for use in inversion lemmas. -/
def normalizedOf (item : PaymentItemInput) : NormalizedPaymentItem :=
  let resolved_effective_price :=
    (item.effective_unit_price.or item.price).getD item.base_unit_price
  { product_id := item.product_id
    name := rustTrim item.name
    quantity_decimal := item.quantity
    legacy_quantity :=
      if rustRound item.quantity ≤ 0 then 1 else rustRound item.quantity
    base_unit_price := item.base_unit_price
    edited_unit_price := item.edited_unit_price.filter (fun v => decide (0 ≤ v))
    effective_unit_price := resolved_effective_price
    line_subtotal :=
      item.line_subtotal.getD (round_money ((resolved_effective_price : ℚ) * item.quantity))
    line_discount := item.line_discount.getD 0 }

/-- Rust `str::eq_ignore_ascii_case`, as used by `column_exists`
(lib.rs line 174); Lean's `Char.toLower` lowercases exactly the ASCII
uppercase range. -/
def eqIgnoreAsciiCase (a b : String) : Bool := a.toLower == b.toLower

/-- `column_exists` from lib.rs (lines 168–179) on a table modelled by
its column-name list (`PRAGMA table_info` row order). -/
def column_exists (cols : List String) (column : String) : Bool :=
  cols.any (fun name => eqIgnoreAsciiCase name column)

/-- `add_column_if_missing` from lib.rs (lines 181–194): `ALTER TABLE
... ADD COLUMN` appends the column only when it is absent. -/
def add_column_if_missing (cols : List String) (column : String) : List String :=
  if column_exists cols column then cols else cols ++ [column]

/-- `ensure_payment_item_columns` from lib.rs (lines 196–208): the five
additively-migrated optional columns of `payment_items`. -/
def ensure_payment_item_columns (cols : List String) : List String :=
  add_column_if_missing
    (add_column_if_missing
      (add_column_if_missing
        (add_column_if_missing
          (add_column_if_missing cols "quantity_decimal")
          "base_unit_price")
        "edited_unit_price")
      "line_subtotal")
    "line_discount"

/-- A seeded cashier row, carrying the fields set by the seeding
`INSERT` of lib.rs lines 319–331. -/
structure CashierRow where
  code : String
  name : String
  role : String
  last_active : String
  require_pin : Bool
  pin : Option String
  display_order : ℤ
deriving DecidableEq

/-- `DEFAULT_CASHIER_SEED` from lib.rs (lines 302–307). -/
def DEFAULT_CASHIER_SEED : List (String × String × String × String × Bool × Option String) :=
  [("linh", "Linh", "Trưởng ca", "08:05", true, some "1234"),
   ("hoang", "Hoàng", "Thu ngân", "08:10", false, none),
   ("an", "An", "Thu ngân", "Đang nghỉ", true, some "5678"),
   ("vi", "Vi", "Thu ngân", "Hôm qua", false, none)]

/-- `seed_cashiers_if_empty` from lib.rs (lines 309–335): inserts the
default cashiers, with `display_order = index + 1`, only when the table
holds no row at all. -/
def seed_cashiers_if_empty (rows : List CashierRow) : List CashierRow :=
  if 0 < rows.length then rows
  else
    DEFAULT_CASHIER_SEED.enum.map (fun p =>
      { code := p.2.1
        name := p.2.2.1
        role := p.2.2.2.1
        last_active := p.2.2.2.2.1
        require_pin := p.2.2.2.2.2.1
        pin := p.2.2.2.2.2.2
        display_order := (p.1 : ℤ) + 1 })

/-- The schema-level state touched by `initialize_schema`: for each of
the four tables, `some cols` when the table exists with the listed
columns (in `PRAGMA table_info` order), `none` when absent; plus the
rows of the `cashiers` table. -/
structure SchemaState where
  products : Option (List String)
  payments : Option (List String)
  payment_items : Option (List String)
  cashiers : Option (List String)
  cashier_rows : List CashierRow
deriving DecidableEq

/-- `CREATE TABLE IF NOT EXISTS`: leaves an existing table untouched,
creates the baseline column set otherwise. -/
def createTableIfNotExists (table : Option (List String)) (baseline : List String) :
    Option (List String) :=
  match table with
  | some cols => some cols
  | none => some baseline

/-- Baseline columns of `products` (lib.rs lines 219–228). -/
def productsBaseline : List String :=
  ["id", "name", "price", "barcode", "visible", "quick_display", "display_order", "created_at"]

/-- Baseline columns of `payments` (lib.rs lines 233–245). -/
def paymentsBaseline : List String :=
  ["id", "invoice_number", "cashier_name", "subtotal", "tax", "total", "discount",
   "paid_cash", "change_due", "note", "created_at"]

/-- Baseline columns of `payment_items` (lib.rs lines 250–262). -/
def paymentItemsBaseline : List String :=
  ["id", "payment_id", "product_id", "name", "quantity", "price", "quantity_decimal",
   "base_unit_price", "edited_unit_price", "line_subtotal", "line_discount"]

/-- Baseline columns of `cashiers` (lib.rs lines 267–278). -/
def cashiersBaseline : List String :=
  ["id", "code", "name", "role", "last_active", "require_pin", "pin", "display_order",
   "is_active", "created_at"]

/-- `initialize_schema` from lib.rs (lines 217–285): four
`CREATE TABLE IF NOT EXISTS` statements, the additive column migration
of `payment_items`, and the one-shot cashier seeding. -/
def initialize_schema (s : SchemaState) : SchemaState :=
  let s1 : SchemaState :=
    { products := createTableIfNotExists s.products productsBaseline
      payments := createTableIfNotExists s.payments paymentsBaseline
      payment_items := createTableIfNotExists s.payment_items paymentItemsBaseline
      cashiers := createTableIfNotExists s.cashiers cashiersBaseline
      cashier_rows := s.cashier_rows }
  let s2 : SchemaState :=
    { s1 with
      payment_items := s1.payment_items.map ensure_payment_item_columns }
  { s2 with cashier_rows := seed_cashiers_if_empty s2.cashier_rows }

/-- The empty database: no payments, no items, AUTOINCREMENT counters
at 1 (SQLite rowids start at 1). -/
def db0 : DB :=
  { payments := [], payment_items := [], next_payment_id := 1, next_item_id := 1 }

/-- The example payload of the specification (§8): one Coffee line at
quantity 2 and base unit price 50. -/
def examplePayload : CreatePaymentPayload :=
  { invoice_number := "INV-1"
    cashier_name := "Linh"
    subtotal := 100
    tax := 10
    total := 110
    discount := 0
    paid_cash := 200
    change_due := 90
    note := none
    items := [{ product_id := none
                name := "Coffee"
                quantity := 2
                base_unit_price := 50
                edited_unit_price := none
                effective_unit_price := none
                price := none
                line_subtotal := none
                line_discount := none }] }

/-- The aggregate returned for `examplePayload` on the empty database. -/
def exampleRecord : PaymentRecord :=
  { id := 1, invoice_number := "INV-1", cashier_name := "Linh", subtotal := 100,
    tax := 10, total := 110, discount := 0, paid_cash := 200, change_due := 90,
    note := none, created_at := "t",
    items := [{ id := 1, product_id := none, name := "Coffee", quantity := 2, price := 50,
                quantity_decimal := some 2, base_unit_price := 50, edited_unit_price := none,
                effective_unit_price := 50, line_subtotal := 100, line_discount := 0 }] }

/-- The single `payment_items` row stored for `examplePayload`. -/
def exampleItemRow : PaymentItemRow :=
  { id := 1, payment_id := 1, product_id := none, name := "Coffee", quantity := 2,
    price := 50, quantity_decimal := some 2, base_unit_price := some 50,
    edited_unit_price := none, line_subtotal := some 100, line_discount := some 0 }

/-- A payload with fixed valid header fields and the given items, for
concrete validation runs. -/
def mkPayload (items : List PaymentItemInput) : CreatePaymentPayload :=
  { invoice_number := "INV-9", cashier_name := "Ana", subtotal := 5, tax := 0, total := 5,
    discount := 0, paid_cash := 5, change_due := 0, note := none, items := items }

/-- An item whose only violation is a negative line discount. -/
def negDiscItem : PaymentItemInput :=
  { product_id := none, name := "Tea", quantity := 1, base_unit_price := 5,
    edited_unit_price := none, effective_unit_price := none, price := none,
    line_subtotal := none, line_discount := some (-1) }

/-- A valid item whose decimal quantity rounds to zero. -/
def smallQtyItem : PaymentItemInput :=
  { product_id := none, name := "Rice", quantity := 3/10, base_unit_price := 10,
    edited_unit_price := none, effective_unit_price := none, price := none,
    line_subtotal := none, line_discount := none }

/-- A valid item carrying no explicit effective price and an explicit
generic price, to exercise the resolution precedence. -/
def precItem : PaymentItemInput :=
  { product_id := none, name := "Milk", quantity := 1, base_unit_price := 3,
    edited_unit_price := none, effective_unit_price := none, price := some 7,
    line_subtotal := none, line_discount := none }

/-- A valid base item for edited-price experiments. -/
def editBaseItem : PaymentItemInput :=
  { product_id := none, name := "Jam", quantity := 1, base_unit_price := 4,
    edited_unit_price := none, effective_unit_price := none, price := none,
    line_subtotal := none, line_discount := none }

/-- A payload whose invoice number trims to empty and whose item list is
empty. -/
def payloadBlankInvoiceNoItems : CreatePaymentPayload :=
  { invoice_number := " ", cashier_name := "Ana", subtotal := 0, tax := 0, total := 0,
    discount := 0, paid_cash := 0, change_due := 0, note := none, items := [] }

/-- A payload whose invoice number trims to empty but whose item list is
valid. -/
def payloadBlankInvoiceGoodItems : CreatePaymentPayload :=
  { invoice_number := " ", cashier_name := "Ana", subtotal := 5, tax := 0, total := 5,
    discount := 0, paid_cash := 5, change_due := 0, note := none, items := [precItem] }

/-- The database state after `create_payment` succeeds on
`examplePayload` over the empty database. -/
def exampleDB : DB :=
  { payments := [{ id := 1, invoice_number := "INV-1", cashier_name := "Linh",
                   subtotal := 100, tax := 10, total := 110, discount := 0,
                   paid_cash := 200, change_due := 90, note := none, created_at := "t" }],
    payment_items := [exampleItemRow],
    next_payment_id := 2, next_item_id := 2 }

/-- The normalized item produced for `precItem`. -/
def precNorm : NormalizedPaymentItem :=
  { product_id := none, name := "Milk", quantity_decimal := 1, legacy_quantity := 1,
    base_unit_price := 3, edited_unit_price := none, effective_unit_price := 7,
    line_subtotal := 7, line_discount := 0 }

/-- The normalized item produced for `smallQtyItem`. -/
def smallQtyNorm : NormalizedPaymentItem :=
  { product_id := none, name := "Rice", quantity_decimal := 3/10, legacy_quantity := 1,
    base_unit_price := 10, edited_unit_price := none, effective_unit_price := 10,
    line_subtotal := 3, line_discount := 0 }

/-- A schema state with no tables and one existing cashier row. -/
def schemaWithCashier : SchemaState :=
  { products := none, payments := none, payment_items := none, cashiers := none,
    cashier_rows := [{ code := "x", name := "X", role := "r", last_active := "",
                       require_pin := false, pin := none, display_order := 1 }] }

theorem normalizeItem_ok_eq {item : PaymentItemInput} {n : NormalizedPaymentItem}
    (h : normalizeItem item = .ok n) : n = normalizedOf item := by
  simp only [normalizeItem] at h
  split at h
  · exact absurd h (by simp)
  split at h
  · exact absurd h (by simp)
  split at h
  · exact absurd h (by simp)
  split at h
  · exact absurd h (by simp)
  split at h
  · exact absurd h (by simp)
  split at h
  · exact absurd h (by simp)
  injection h with h
  exact h.symm

theorem normalizeItemsLoop_ok_forall2 :
    ∀ {items : List PaymentItemInput} {ns : List NormalizedPaymentItem},
      normalizeItemsLoop items = .ok ns →
      List.Forall₂ (fun i n => normalizeItem i = .ok n) items ns := by
  intro items
  induction items with
  | nil =>
      intro ns h
      simp only [normalizeItemsLoop] at h
      injection h with h
      rw [← h]
      exact .nil
  | cons item rest ih =>
      intro ns h
      simp only [normalizeItemsLoop] at h
      split at h
      · exact absurd h (by simp)
      split at h
      · exact absurd h (by simp)
      injection h with h
      rw [← h]
      exact .cons (by assumption) (ih (by assumption))

theorem normalizeItemsLoop_append_error {pre post : List PaymentItemInput}
    {bad : PaymentItemInput} {e : String}
    (hpre : ∀ x ∈ pre, ∃ n, normalizeItem x = .ok n)
    (hbad : normalizeItem bad = .error e) :
    normalizeItemsLoop (pre ++ bad :: post) = .error e := by
  induction pre with
  | nil =>
      simp only [List.nil_append, normalizeItemsLoop, hbad]
  | cons x pre ih =>
      obtain ⟨n, hn⟩ := hpre x (by simp)
      have hrest := ih (fun y hy => hpre y (by simp [hy]))
      simp only [List.cons_append, normalizeItemsLoop, hn, List.append_eq, hrest]

theorem insertItems_ok_inv :
    ∀ {items : List NormalizedPaymentItem} {fail : Option FailPoint} {payment_id : ℤ}
      {k : Nat} {db db' : DB},
      insertItems fail payment_id items k db = .ok db' →
      db'.payments = db.payments ∧
      db'.payment_items = db.payment_items ++ insertedRows payment_id db.next_item_id items ∧
      db'.next_payment_id = db.next_payment_id := by
  intro items
  induction items with
  | nil =>
      intro fail pid k db db' h
      simp only [insertItems] at h
      injection h with h
      rw [← h]
      simp [insertedRows]
  | cons item rest ih =>
      intro fail pid k db db' h
      simp only [insertItems] at h
      split at h
      · exact absurd h (by simp)
      obtain ⟨h1, h2, h3⟩ := ih h
      refine ⟨h1.trans rfl, ?_, h3.trans rfl⟩
      rw [h2]
      simp [insertItemRow, insertedRows, List.append_assoc]

theorem insertedRows_mem_payment_id :
    ∀ {items : List NormalizedPaymentItem} {payment_id row_id : ℤ} {r : PaymentItemRow},
      r ∈ insertedRows payment_id row_id items → r.payment_id = payment_id := by
  intro items
  induction items with
  | nil => intro pid rid r h; simp [insertedRows] at h
  | cons item rest ih =>
      intro pid rid r h
      simp only [insertedRows, List.mem_cons] at h
      rcases h with h | h
      · rw [h]; rfl
      · exact ih h

theorem insertedRows_forall2 (payment_id : ℤ) :
    ∀ (items : List NormalizedPaymentItem) (row_id : ℤ),
      List.Forall₂ (fun n r => ∃ rid, r = itemRowOf payment_id rid n) items
        (insertedRows payment_id row_id items) := by
  intro items
  induction items with
  | nil => intro rid; exact .nil
  | cons item rest ih =>
      intro rid
      exact .cons ⟨rid, rfl⟩ (ih (rid + 1))

theorem forall2_trans {α β γ : Type} {R : α → β → Prop} {S : β → γ → Prop}
    {T : α → γ → Prop} (hc : ∀ a b c, R a b → S b c → T a c) :
    ∀ {l₁ : List α} {l₂ : List β} {l₃ : List γ},
      List.Forall₂ R l₁ l₂ → List.Forall₂ S l₂ l₃ → List.Forall₂ T l₁ l₃ := by
  intro l₁
  induction l₁ with
  | nil =>
      intro l₂ l₃ h1 h2
      cases h1
      cases h2
      exact .nil
  | cons a l ih =>
      intro l₂ l₃ h1 h2
      cases h1 with
      | cons hr h1' =>
        cases h2 with
        | cons hs h2' =>
          exact .cons (hc _ _ _ hr hs) (ih h1' h2')

theorem create_payment_normalize_error {payload : CreatePaymentPayload} {e : String}
    (h : normalize_payment_items payload.items = .error e)
    (fail : Option FailPoint) (now : String) (db : DB) :
    create_payment fail now db payload = (db, .error e) := by
  simp [create_payment, h]

theorem create_payment_invoice_missing {payload : CreatePaymentPayload}
    {ns : List NormalizedPaymentItem}
    (hok : normalize_payment_items payload.items = .ok ns)
    (hinv : (rustTrim payload.invoice_number).isEmpty = true)
    (fail : Option FailPoint) (now : String) (db : DB) :
    create_payment fail now db payload = (db, .error "Invoice number is required") := by
  simp [create_payment, hok, hinv]

theorem create_payment_cashier_missing {payload : CreatePaymentPayload}
    {ns : List NormalizedPaymentItem}
    (hok : normalize_payment_items payload.items = .ok ns)
    (hinv : (rustTrim payload.invoice_number).isEmpty = false)
    (hcash : (rustTrim payload.cashier_name).isEmpty = true)
    (fail : Option FailPoint) (now : String) (db : DB) :
    create_payment fail now db payload = (db, .error "Cashier name is required") := by
  simp [create_payment, hok, hinv, hcash]

theorem create_payment_ok_inv {fail : Option FailPoint} {now : String} {db : DB}
    {payload : CreatePaymentPayload} {rec : PaymentRecord}
    (h : (create_payment fail now db payload).2 = .ok rec) :
    ∃ ns, normalize_payment_items payload.items = .ok ns ∧
      (create_payment fail now db payload).1.payments
        = db.payments ++ [headerRowOf now db.next_payment_id payload] ∧
      (create_payment fail now db payload).1.payment_items
        = db.payment_items ++ insertedRows db.next_payment_id db.next_item_id ns ∧
      (create_payment fail now db payload).2
        = load_payment_by_id (create_payment fail now db payload).1 db.next_payment_id := by
  rcases hn : normalize_payment_items payload.items with e | ns
  · rw [create_payment_normalize_error hn fail now db] at h
    exact absurd h (by simp)
  cases hinv : (rustTrim payload.invoice_number).isEmpty with
  | true =>
      rw [create_payment_invoice_missing hn hinv fail now db] at h
      exact absurd h (by simp)
  | false =>
  cases hcash : (rustTrim payload.cashier_name).isEmpty with
  | true =>
      rw [create_payment_cashier_missing hn hinv hcash fail now db] at h
      exact absurd h (by simp)
  | false =>
  by_cases hf1 : fail = some FailPoint.headerInsert
  · simp only [create_payment, hn, hinv, hcash, hf1] at h
    exact absurd h (by simp)
  rcases hI : insertItems fail db.next_payment_id ns 0 (pendingOf now db payload)
    with eI | populated
  · simp only [create_payment, hn, hinv, hcash, hf1, hI] at h
    exact absurd h (by simp)
  by_cases hf2 : fail = some FailPoint.commit
  · subst hf2
    simp [create_payment, hn, hinv, hcash, hI] at h
  obtain ⟨h1, h2, h3⟩ := insertItems_ok_inv hI
  have hcp : create_payment fail now db payload
      = (populated, load_payment_by_id populated db.next_payment_id) := by
    simp [create_payment, hn, hinv, hcash, hf1, hI, hf2]
  refine ⟨ns, rfl, ?_, ?_, ?_⟩ <;> rw [hcp]
  · rw [h1]; rfl
  · rw [h2]; rfl

theorem create_payment_error_unchanged {fail : Option FailPoint} {now : String}
    {db : DB} {payload : CreatePaymentPayload} (hwf : db.WF) {e : String}
    (h : (create_payment fail now db payload).2 = .error e) :
    (create_payment fail now db payload).1 = db := by
  rcases hn : normalize_payment_items payload.items with e' | ns
  · rw [create_payment_normalize_error hn fail now db]
  cases hinv : (rustTrim payload.invoice_number).isEmpty with
  | true => rw [create_payment_invoice_missing hn hinv fail now db]
  | false =>
  cases hcash : (rustTrim payload.cashier_name).isEmpty with
  | true => rw [create_payment_cashier_missing hn hinv hcash fail now db]
  | false =>
  by_cases hf1 : fail = some FailPoint.headerInsert
  · simp [create_payment, hn, hinv, hcash, hf1]
  rcases hI : insertItems fail db.next_payment_id ns 0 (pendingOf now db payload)
    with eI | populated
  · simp [create_payment, hn, hinv, hcash, hf1, hI]
  by_cases hf2 : fail = some FailPoint.commit
  · subst hf2
    simp [create_payment, hn, hinv, hcash, hI]
  exfalso
  simp only [create_payment, hn, hinv, hcash, hf1, hI, hf2, if_false] at h
  obtain ⟨h1, h2, h3⟩ := insertItems_ok_inv hI
  have hpay : populated.payments
      = db.payments ++ [headerRowOf now db.next_payment_id payload] := by
    rw [h1]; rfl
  have hnone : db.payments.find? (fun r => decide (r.id = db.next_payment_id)) = none := by
    rw [List.find?_eq_none]
    intro x hx
    simp only [decide_eq_true_eq]
    exact ne_of_lt (hwf.1 x hx)
  simp [load_payment_by_id, fetch_payment_row, hpay, List.find?_append, hnone,
    List.find?_cons, headerRowOf, Except.map] at h

theorem normalize_payment_items_ok_loop {items : List PaymentItemInput}
    {ns : List NormalizedPaymentItem}
    (h : normalize_payment_items items = .ok ns) : normalizeItemsLoop items = .ok ns := by
  unfold normalize_payment_items at h
  split at h
  · exact absurd h (by simp)
  · exact h

theorem load_after_commit {now : String} {payload : CreatePaymentPayload}
    {ns : List NormalizedPaymentItem} {db db' : DB} (hwf : db.WF)
    (hp : db'.payments = db.payments ++ [headerRowOf now db.next_payment_id payload])
    (hi : db'.payment_items
      = db.payment_items ++ insertedRows db.next_payment_id db.next_item_id ns) :
    fetch_payment_items db' db.next_payment_id
      = (insertedRows db.next_payment_id db.next_item_id ns).map hydrateItemRow ∧
    load_payment_by_id db' db.next_payment_id
      = .ok (hydrate_payment_record db' (headerRowOf now db.next_payment_id payload)) := by
  constructor
  · unfold fetch_payment_items
    rw [hi, List.filter_append]
    have h1 : db.payment_items.filter
        (fun r => decide (r.payment_id = db.next_payment_id)) = [] := by
      rw [List.filter_eq_nil_iff]
      intro r hr
      simp only [decide_eq_true_eq]
      exact ne_of_lt (hwf.2.1 r hr)
    have h2 : (insertedRows db.next_payment_id db.next_item_id ns).filter
          (fun r => decide (r.payment_id = db.next_payment_id))
        = insertedRows db.next_payment_id db.next_item_id ns := by
      rw [List.filter_eq_self]
      intro r hr
      simp only [decide_eq_true_eq]
      exact insertedRows_mem_payment_id hr
    rw [h1, h2, List.nil_append]
  · have hnone : db.payments.find? (fun r => decide (r.id = db.next_payment_id)) = none := by
      rw [List.find?_eq_none]
      intro x hx
      simp only [decide_eq_true_eq]
      exact ne_of_lt (hwf.1 x hx)
    unfold load_payment_by_id fetch_payment_row
    rw [hp, List.find?_append, hnone]
    simp [headerRowOf, List.find?, Except.map]

theorem column_exists_add_self (cols : List String) (c : String) :
    column_exists (add_column_if_missing cols c) c = true := by
  unfold add_column_if_missing
  split
  · assumption
  · unfold column_exists
    rw [List.any_append]
    simp [eqIgnoreAsciiCase]

theorem column_exists_add_mono {cols : List String} {c : String} (d : String)
    (h : column_exists cols c = true) :
    column_exists (add_column_if_missing cols d) c = true := by
  unfold add_column_if_missing
  split
  · exact h
  · unfold column_exists at h ⊢
    rw [List.any_append]
    simp [h]

theorem add_column_exists_eq {cols : List String} {c : String}
    (h : column_exists cols c = true) :
    add_column_if_missing cols c = cols := by
  unfold add_column_if_missing
  rw [if_pos h]

theorem ensure_payment_item_columns_idem (cols : List String) :
    ensure_payment_item_columns (ensure_payment_item_columns cols)
      = ensure_payment_item_columns cols := by
  have e1 := column_exists_add_mono "line_discount" (column_exists_add_mono "line_subtotal"
    (column_exists_add_mono "edited_unit_price" (column_exists_add_mono "base_unit_price"
      (column_exists_add_self cols "quantity_decimal"))))
  have e2 := column_exists_add_mono "line_discount" (column_exists_add_mono "line_subtotal"
    (column_exists_add_mono "edited_unit_price"
      (column_exists_add_self (add_column_if_missing cols "quantity_decimal")
        "base_unit_price")))
  have e3 := column_exists_add_mono "line_discount" (column_exists_add_mono "line_subtotal"
    (column_exists_add_self
      (add_column_if_missing (add_column_if_missing cols "quantity_decimal")
        "base_unit_price") "edited_unit_price"))
  have e4 := column_exists_add_mono "line_discount" (column_exists_add_self
    (add_column_if_missing (add_column_if_missing
      (add_column_if_missing cols "quantity_decimal") "base_unit_price")
      "edited_unit_price") "line_subtotal")
  have e5 := column_exists_add_self
    (add_column_if_missing (add_column_if_missing (add_column_if_missing
      (add_column_if_missing cols "quantity_decimal") "base_unit_price")
      "edited_unit_price") "line_subtotal") "line_discount"
  conv_lhs => rw [ensure_payment_item_columns, ensure_payment_item_columns]
  rw [add_column_exists_eq e1, add_column_exists_eq e2, add_column_exists_eq e3,
    add_column_exists_eq e4, add_column_exists_eq e5]
  rfl

theorem seed_cashiers_if_empty_length (rows : List CashierRow) :
    0 < (seed_cashiers_if_empty rows).length := by
  unfold seed_cashiers_if_empty
  split
  · assumption
  · decide

theorem seed_cashiers_if_empty_of_nonempty {rows : List CashierRow}
    (h : 0 < rows.length) : seed_cashiers_if_empty rows = rows := by
  unfold seed_cashiers_if_empty
  rw [if_pos h]

theorem createTableIfNotExists_idem (t : Option (List String)) (b : List String) :
    createTableIfNotExists (createTableIfNotExists t b) b = createTableIfNotExists t b := by
  cases t <;> rfl

theorem round_money_eq_floor_max (x : ℚ) : round_money x = max ⌊x⌋ 0 := by
  have hmode : ¬ (MONEY_ROUNDING_MODE = "round") := by decide
  simp [round_money, hmode]

/-- Claim C2: under the default floor policy, `round_money x` equals
`max 0 ⌊x⌋`: it is `⌊x⌋` for `x ≥ 0`, is clamped to `0` for `x < 0`,
and is never negative. -/
theorem round_money_floor_spec (x : ℚ) :
    round_money x = max 0 ⌊x⌋ ∧
    (0 ≤ x → round_money x = ⌊x⌋) ∧
    (x < 0 → round_money x = 0) ∧
    0 ≤ round_money x := by
  have hmode : ¬ (MONEY_ROUNDING_MODE = "round") := by decide
  have hval : round_money x = max ⌊x⌋ 0 := by
    simp [round_money, hmode]
  refine ⟨by rw [hval, max_comm], ?_, ?_, ?_⟩
  · intro hx
    rw [hval, max_eq_left (Int.floor_nonneg.mpr hx)]
  · intro hx
    rw [hval, max_eq_right ?_]
    exact le_of_lt (Int.floor_lt.mpr (by exact_mod_cast hx))
  · rw [hval]
    exact le_max_right _ _

/-- Witness for C2 at concrete inputs `7/2` and `-3/2`. -/
theorem round_money_floor_spec_witness :
    ((0 : ℚ) ≤ 7/2 ∧ round_money (7/2) = ⌊(7/2 : ℚ)⌋) ∧
    ((-3/2 : ℚ) < 0 ∧ round_money (-3/2) = 0) :=
  ⟨⟨by norm_num, (round_money_floor_spec (7/2)).2.1 (by norm_num)⟩,
   ⟨by norm_num, (round_money_floor_spec (-3/2)).2.2.1 (by norm_num)⟩⟩

/-- Claim C3: a row whose optional columns (decimal quantity, base unit
price, line subtotal, line discount) are all NULL hydrates to the same
record as the equivalent row with those columns populated explicitly as
decimal quantity = legacy quantity, base price = stored price, line
subtotal = `round_money (price * decimalQuantity)`, line discount = 0. -/
theorem hydrate_null_backfill_eq (id payment_id : ℤ) (product_id : Option ℤ)
    (name : String) (quantity price : ℤ) (edited_unit_price : Option ℤ) :
    hydrateItemRow
      { id := id, payment_id := payment_id, product_id := product_id,
        name := name, quantity := quantity, price := price,
        quantity_decimal := none, base_unit_price := none,
        edited_unit_price := edited_unit_price,
        line_subtotal := none, line_discount := none } =
    hydrateItemRow
      { id := id, payment_id := payment_id, product_id := product_id,
        name := name, quantity := quantity, price := price,
        quantity_decimal := some ((quantity : ℚ)),
        base_unit_price := some price,
        edited_unit_price := edited_unit_price,
        line_subtotal := some (round_money ((price : ℚ) * (quantity : ℚ))),
        line_discount := some 0 } := by
  rfl

/-- Claim C1: `create_payment` is all-or-nothing.  On any error (from
validation or from an injected storage failure at the header insert, any
item insert, or the commit) the durable database is unchanged and holds
zero payment rows and zero item rows for the payment id the operation
would have used; on success it holds the header and every normalized
item. -/
theorem create_payment_atomicity (fail : Option FailPoint) (now : String)
    (db : DB) (payload : CreatePaymentPayload) (hwf : db.WF) :
    (∀ e, (create_payment fail now db payload).2 = .error e →
      (create_payment fail now db payload).1 = db ∧
      (create_payment fail now db payload).1.payments.filter
        (fun r => decide (r.id = db.next_payment_id)) = [] ∧
      (create_payment fail now db payload).1.payment_items.filter
        (fun r => decide (r.payment_id = db.next_payment_id)) = []) ∧
    (∀ rec, (create_payment fail now db payload).2 = .ok rec →
      ∃ ns, normalize_payment_items payload.items = .ok ns ∧
        (create_payment fail now db payload).1.payments
          = db.payments ++ [headerRowOf now db.next_payment_id payload] ∧
        (create_payment fail now db payload).1.payment_items
          = db.payment_items ++ insertedRows db.next_payment_id db.next_item_id ns) := by
  constructor
  · intro e h
    have hd := create_payment_error_unchanged hwf h
    refine ⟨hd, ?_, ?_⟩
    · rw [hd, List.filter_eq_nil_iff]
      intro r hr
      simp only [decide_eq_true_eq]
      exact ne_of_lt (hwf.1 r hr)
    · rw [hd, List.filter_eq_nil_iff]
      intro r hr
      simp only [decide_eq_true_eq]
      exact ne_of_lt (hwf.2.1 r hr)
  · intro rec h
    obtain ⟨ns, hn, hp, hi, _⟩ := create_payment_ok_inv h
    exact ⟨ns, hn, hp, hi⟩

/-- Witness for C1: a commit failure on the spec's example payload over
the empty database leaves the database unchanged. -/
theorem create_payment_atomicity_witness :
    db0.WF ∧ (create_payment (some .commit) "t" db0 examplePayload).1 = db0 := by
  have hname : (rustTrim "Coffee").isEmpty = false := by decide
  have he2 : ("INV-1".isEmpty) = false := by decide
  have he3 : ("Linh".isEmpty) = false := by decide
  have hinv : rustTrim "INV-1" = "INV-1" := by decide
  have hcash : rustTrim "Linh" = "Linh" := by decide
  have hc1 : ¬ (FailPoint.commit = FailPoint.headerInsert) := by decide
  have hc2 : ¬ (FailPoint.commit = FailPoint.itemInsert 0) := by decide
  have heval : (create_payment (some .commit) "t" db0 examplePayload).2
      = .error "storage failure" := by
    norm_num [create_payment, normalize_payment_items, normalizeItemsLoop, normalizeItem,
      examplePayload, hname, hinv, hcash, he2, he3, hc1, hc2, round_money, rustRound,
      MONEY_ROUNDING_MODE, db0, pendingOf, headerRowOf, insertItems, insertItemRow,
      itemRowOf, normalize_note]
  exact ⟨by decide,
    ((create_payment_atomicity (some .commit) "t" db0 examplePayload (by decide)).1
      "storage failure" heval).1⟩

/-- Claim C6: `initialize_schema` is idempotent — a second call in
sequence changes nothing — and the cashier seed rows go in exactly when
the cashiers table is completely empty, never once a row exists. -/
theorem initialize_schema_idempotent (s : SchemaState) :
    initialize_schema (initialize_schema s) = initialize_schema s ∧
    (s.cashier_rows = [] →
      (initialize_schema s).cashier_rows = seed_cashiers_if_empty []) ∧
    (s.cashier_rows ≠ [] →
      (initialize_schema s).cashier_rows = s.cashier_rows) := by
  cases s with
  | mk pr pa pi ca rows =>
    refine ⟨?_, ?_, ?_⟩
    · simp only [initialize_schema, SchemaState.mk.injEq]
      refine ⟨?_, ?_, ?_, ?_, ?_⟩
      · exact createTableIfNotExists_idem pr productsBaseline
      · exact createTableIfNotExists_idem pa paymentsBaseline
      · cases pi <;>
          simp [createTableIfNotExists, ensure_payment_item_columns_idem]
      · exact createTableIfNotExists_idem ca cashiersBaseline
      · exact seed_cashiers_if_empty_of_nonempty (seed_cashiers_if_empty_length rows)
    · intro hrows
      have hr : rows = [] := hrows
      simp only [initialize_schema]
      rw [hr]
    · intro hrows
      have hr : rows ≠ [] := hrows
      simp only [initialize_schema]
      exact seed_cashiers_if_empty_of_nonempty (by
        cases rows with
        | nil => exact absurd rfl hr
        | cons a l => simp)

/-- Witness for C6 at a concrete schema state that already has one
cashier row: re-running changes nothing and no reseeding happens. -/
theorem initialize_schema_idempotent_witness :
    initialize_schema (initialize_schema schemaWithCashier)
      = initialize_schema schemaWithCashier ∧
    schemaWithCashier.cashier_rows ≠ [] ∧
    (initialize_schema schemaWithCashier).cashier_rows
      = schemaWithCashier.cashier_rows := by
  refine ⟨(initialize_schema_idempotent schemaWithCashier).1, by decide, ?_⟩
  exact (initialize_schema_idempotent schemaWithCashier).2.2 (by decide)

/-- Claim C4: `create_payment` with an empty item list fails with the
empty-item-list error; when validation reaches an item with a
non-positive quantity it fails with the quantity error; when it reaches
an item with a negative base price the base-price error; when it reaches
an item with a negative line discount the discount error — and in every
case the database is returned unchanged (no payment or item row
inserted).  Validation is fail-fast in item order, so each case assumes
the earlier items and the earlier checks of the failing item pass. -/
theorem create_payment_validation_errors (fail : Option FailPoint) (now : String)
    (db : DB) (payload : CreatePaymentPayload) :
    (payload.items = [] →
      create_payment fail now db payload
        = (db, .error "Payment must contain at least one item")) ∧
    (∀ pre bad post, payload.items = pre ++ bad :: post →
      (∀ x ∈ pre, ∃ n, normalizeItem x = .ok n) →
      ((bad.quantity ≤ 0 →
          create_payment fail now db payload
            = (db, .error "Item quantity must be greater than 0")) ∧
       (0 < bad.quantity → (rustTrim bad.name).isEmpty = false →
          bad.base_unit_price < 0 →
          create_payment fail now db payload
            = (db, .error "Base unit price cannot be negative")) ∧
       (0 < bad.quantity → (rustTrim bad.name).isEmpty = false →
          0 ≤ bad.base_unit_price →
          0 ≤ (bad.effective_unit_price.or bad.price).getD bad.base_unit_price →
          0 ≤ bad.line_subtotal.getD (round_money
            (((bad.effective_unit_price.or bad.price).getD bad.base_unit_price : ℚ)
              * bad.quantity)) →
          bad.line_discount.getD 0 < 0 →
          create_payment fail now db payload
            = (db, .error "Line discount cannot be negative")))) := by
  constructor
  · intro hempty
    refine create_payment_normalize_error ?_ fail now db
    rw [hempty]
    rfl
  · intro pre bad post hitems hpre
    have hne : ¬ (payload.items.isEmpty = true) := by
      rw [hitems]
      cases pre <;> simp
    have herr : ∀ e, normalizeItem bad = .error e →
        normalize_payment_items payload.items = .error e := by
      intro e hbad
      rw [hitems]
      unfold normalize_payment_items
      rw [if_neg (by rw [← hitems]; exact hne)]
      exact normalizeItemsLoop_append_error hpre hbad
    refine ⟨?_, ?_, ?_⟩
    · intro hq
      refine create_payment_normalize_error (herr _ ?_) fail now db
      simp only [normalizeItem]
      rw [if_pos hq]
    · intro hq hname hbase
      refine create_payment_normalize_error (herr _ ?_) fail now db
      simp only [normalizeItem]
      rw [if_neg (not_le.mpr hq), if_neg (by simp [hname]), if_pos hbase]
    · intro hq hname hbase heff hsub hdisc
      refine create_payment_normalize_error (herr _ ?_) fail now db
      simp only [normalizeItem]
      rw [if_neg (not_le.mpr hq), if_neg (by simp [hname]), if_neg (not_lt.mpr hbase),
        if_neg (not_lt.mpr heff), if_neg (not_lt.mpr hsub), if_pos hdisc]

/-- Witness for C4: the empty list and a concrete negative-discount item
each produce their error with the database unchanged. -/
theorem create_payment_validation_errors_witness :
    create_payment none "t" db0 (mkPayload [])
      = (db0, .error "Payment must contain at least one item") ∧
    create_payment none "t" db0 (mkPayload [negDiscItem])
      = (db0, .error "Line discount cannot be negative") := by
  constructor
  · exact (create_payment_validation_errors none "t" db0 (mkPayload [])).1 rfl
  · refine ((create_payment_validation_errors none "t" db0 (mkPayload [negDiscItem])).2
      [] negDiscItem [] rfl (by simp)).2.2 ?_ ?_ ?_ ?_ ?_ ?_
    · norm_num [negDiscItem]
    · decide
    · norm_num [negDiscItem]
    · norm_num [negDiscItem]
    · norm_num [negDiscItem, round_money_eq_floor_max]
    · norm_num [negDiscItem]

/-- Claim C5: for every accepted item the effective unit price follows
the fixed precedence (explicit effective price, else explicit price,
else base unit price), and the specification's example payload yields
exactly one stored item row with effective price 50, line subtotal 100,
legacy quantity 2 and decimal quantity 2. -/
theorem effective_price_precedence_spec :
    (∀ item n, normalizeItem item = .ok n →
      n.effective_unit_price
        = (item.effective_unit_price.or item.price).getD item.base_unit_price) ∧
    (create_payment none "t" db0 examplePayload = (exampleDB, .ok exampleRecord) ∧
     exampleDB.payment_items = [exampleItemRow] ∧
     exampleItemRow.price = 50 ∧ exampleItemRow.line_subtotal = some 100 ∧
     exampleItemRow.quantity = 2 ∧ exampleItemRow.quantity_decimal = some 2 ∧
     exampleRecord.items.map (fun r =>
       (r.effective_unit_price, r.line_subtotal, r.quantity, r.quantity_decimal))
       = [(50, 100, 2, some 2)]) := by
  constructor
  · intro item n h
    rw [normalizeItem_ok_eq h]
    rfl
  · have hname : (rustTrim "Coffee").isEmpty = false := by decide
    have hname2 : rustTrim "Coffee" = "Coffee" := by decide
    have hinv : rustTrim "INV-1" = "INV-1" := by decide
    have hcash : rustTrim "Linh" = "Linh" := by decide
    have he1 : ("Coffee".isEmpty) = false := by decide
    have he2 : ("INV-1".isEmpty) = false := by decide
    have he3 : ("Linh".isEmpty) = false := by decide
    have hf1 : ((none : Option FailPoint) = some FailPoint.headerInsert) = False := by simp
    have hf2 : ((none : Option FailPoint) = some (FailPoint.itemInsert 0)) = False := by simp
    have hf3 : ((none : Option FailPoint) = some FailPoint.commit) = False := by simp
    refine ⟨?_, by decide, by decide, by decide, by decide, by decide, by decide⟩
    norm_num [create_payment, normalize_payment_items, normalizeItemsLoop, normalizeItem,
      examplePayload, hname, hname2, hinv, hcash, he1, he2, he3, hf1, hf2, hf3,
      round_money, rustRound, MONEY_ROUNDING_MODE, db0, pendingOf, headerRowOf,
      insertItems, insertItemRow, itemRowOf, normalize_note, load_payment_by_id,
      fetch_payment_row, hydrate_payment_record, fetch_payment_items, hydrateItemRow,
      exampleDB, exampleRecord, exampleItemRow, List.find?, List.filter, Except.map]

/-- Witness for C5's universally quantified precedence clause at a
concrete item whose explicit generic price must win over the base
price. -/
theorem effective_price_precedence_spec_witness :
    normalizeItem precItem = .ok precNorm ∧
    precNorm.effective_unit_price
      = (precItem.effective_unit_price.or precItem.price).getD precItem.base_unit_price := by
  have hname : (rustTrim "Milk").isEmpty = false := by decide
  have hname2 : rustTrim "Milk" = "Milk" := by decide
  have he : ("Milk".isEmpty) = false := by decide
  have hok : normalizeItem precItem = .ok precNorm := by
    norm_num [normalizeItem, precItem, precNorm, hname, hname2, he,
      round_money, rustRound, MONEY_ROUNDING_MODE]
  exact ⟨hok, effective_price_precedence_spec.1 precItem precNorm hok⟩

/-- Counterexample to claim C7: on a payload whose invoice number trims
to empty AND whose item list is empty, `create_payment` fails with the
empty-item-list error, not the missing-field error — the item validator
runs before the invoice/cashier checks (lib.rs line 727 vs 728–735). -/
theorem invoice_check_order_counterexample :
    (rustTrim payloadBlankInvoiceNoItems.invoice_number).isEmpty = true ∧
    (create_payment none "t" db0 payloadBlankInvoiceNoItems).2
      = .error "Payment must contain at least one item" ∧
    (create_payment none "t" db0 payloadBlankInvoiceNoItems).2
      ≠ .error "Invoice number is required" := by
  have hn : normalize_payment_items payloadBlankInvoiceNoItems.items
      = .error "Payment must contain at least one item" := rfl
  have h := create_payment_normalize_error hn none "t" db0
  refine ⟨by decide, by rw [h], ?_⟩
  rw [h]
  intro hcontra
  injection hcontra with hs
  exact absurd hs (by decide)

/-- Claim C7 (amended): `create_payment` runs the item validator first;
only after the items all pass does it trim and require a non-empty
invoice number, then a non-empty cashier name, failing with the
missing-field error and leaving the database unchanged. -/
theorem create_payment_missing_field_after_items (fail : Option FailPoint)
    (now : String) (db : DB) (payload : CreatePaymentPayload)
    (ns : List NormalizedPaymentItem)
    (hok : normalize_payment_items payload.items = .ok ns) :
    ((rustTrim payload.invoice_number).isEmpty = true →
      create_payment fail now db payload = (db, .error "Invoice number is required")) ∧
    ((rustTrim payload.invoice_number).isEmpty = false →
     (rustTrim payload.cashier_name).isEmpty = true →
      create_payment fail now db payload = (db, .error "Cashier name is required")) :=
  ⟨fun h => create_payment_invoice_missing hok h fail now db,
   fun h1 h2 => create_payment_cashier_missing hok h1 h2 fail now db⟩

/-- Witness for the amended C7: a blank invoice with a fully valid item
list yields the missing-invoice error and no write. -/
theorem create_payment_missing_field_after_items_witness :
    normalize_payment_items payloadBlankInvoiceGoodItems.items = .ok [precNorm] ∧
    create_payment none "t" db0 payloadBlankInvoiceGoodItems
      = (db0, .error "Invoice number is required") := by
  have hname : (rustTrim "Milk").isEmpty = false := by decide
  have hname2 : rustTrim "Milk" = "Milk" := by decide
  have he : ("Milk".isEmpty) = false := by decide
  have hok : normalize_payment_items payloadBlankInvoiceGoodItems.items = .ok [precNorm] := by
    norm_num [normalize_payment_items, normalizeItemsLoop, normalizeItem,
      payloadBlankInvoiceGoodItems, precItem, precNorm, hname, hname2, he,
      round_money, rustRound, MONEY_ROUNDING_MODE]
  exact ⟨hok, (create_payment_missing_field_after_items none "t" db0
    payloadBlankInvoiceGoodItems [precNorm] hok).1 (by decide)⟩

/-- Claim C8: for every accepted item the legacy integer quantity is the
half-away-from-zero rounding of the decimal quantity, floored to a
minimum of 1 when that rounding is non-positive; it is always ≥ 1. -/
theorem legacy_quantity_spec (item : PaymentItemInput) (n : NormalizedPaymentItem)
    (h : normalizeItem item = .ok n) :
    (0 < rustRound item.quantity → n.legacy_quantity = rustRound item.quantity) ∧
    (rustRound item.quantity ≤ 0 → n.legacy_quantity = 1) ∧
    1 ≤ n.legacy_quantity := by
  rw [normalizeItem_ok_eq h]
  have hleg : (normalizedOf item).legacy_quantity
      = if rustRound item.quantity ≤ 0 then 1 else rustRound item.quantity := rfl
  rw [hleg]
  refine ⟨?_, ?_, ?_⟩
  · intro h0
    rw [if_neg (not_le.mpr h0)]
  · intro h0
    rw [if_pos h0]
  · split
    · exact le_refl 1
    · next h0 => omega

/-- Witness for C8 at a quantity that rounds to zero: the stored legacy
quantity is clamped to 1. -/
theorem legacy_quantity_spec_witness :
    normalizeItem smallQtyItem = .ok smallQtyNorm ∧
    rustRound smallQtyItem.quantity ≤ 0 ∧ smallQtyNorm.legacy_quantity = 1 := by
  have hname : (rustTrim "Rice").isEmpty = false := by decide
  have hname2 : rustTrim "Rice" = "Rice" := by decide
  have he : ("Rice".isEmpty) = false := by decide
  have hok : normalizeItem smallQtyItem = .ok smallQtyNorm := by
    norm_num [normalizeItem, smallQtyItem, smallQtyNorm, hname, hname2, he,
      round_money, rustRound, MONEY_ROUNDING_MODE]
  have hr : rustRound smallQtyItem.quantity ≤ 0 := by
    norm_num [rustRound, smallQtyItem]
  exact ⟨hok, hr, (legacy_quantity_spec smallQtyItem smallQtyNorm hok).2.1 hr⟩

/-- Claim C9: a present negative `edited_unit_price` is silently
discarded — the item is normalized exactly as if the field were absent,
with no error — while a present non-negative `edited_unit_price` is kept
unchanged in the normalized item. -/
theorem edited_price_discard_spec (item : PaymentItemInput) (e : ℤ) :
    (e < 0 → normalizeItem { item with edited_unit_price := some e }
      = normalizeItem { item with edited_unit_price := none }) ∧
    (0 ≤ e → ∀ n, normalizeItem { item with edited_unit_price := some e } = .ok n →
      n.edited_unit_price = some e) := by
  constructor
  · intro hneg
    simp [normalizeItem, Option.filter, not_le.mpr hneg]
  · intro hpos n h
    rw [normalizeItem_ok_eq h]
    simp [normalizedOf, Option.filter, hpos]

/-- Witness for C9: a concrete item with `edited_unit_price = -5`
normalizes identically to the same item without the field. -/
theorem edited_price_discard_spec_witness :
    (-5 : ℤ) < 0 ∧
    normalizeItem { editBaseItem with edited_unit_price := some (-5) }
      = normalizeItem { editBaseItem with edited_unit_price := none } :=
  ⟨by norm_num, (edited_price_discard_spec editBaseItem (-5)).1 (by norm_num)⟩

/-- Claim C10: on success, the aggregate `create_payment` returns is the
validator's normalized output read back from storage — item for item, in
payload order: name trimmed, effective unit price precedence-resolved
(the stored price column holds that resolved value and the hydrator
reports it as the effective unit price), legacy quantity computed,
decimal quantity equal to the input quantity, and line subtotal and
discount equal to the normalized values. -/
theorem create_payment_roundtrip (fail : Option FailPoint) (now : String) (db : DB)
    (payload : CreatePaymentPayload) (rec : PaymentRecord) (hwf : db.WF)
    (h : (create_payment fail now db payload).2 = .ok rec) :
    ∃ ns, normalize_payment_items payload.items = .ok ns ∧
      List.Forall₂ (fun i r =>
        r.name = rustTrim i.name ∧
        r.effective_unit_price
          = (i.effective_unit_price.or i.price).getD i.base_unit_price ∧
        r.price = r.effective_unit_price ∧
        r.quantity = (if rustRound i.quantity ≤ 0 then 1 else rustRound i.quantity) ∧
        r.quantity_decimal = some i.quantity ∧
        r.line_subtotal = i.line_subtotal.getD (round_money
          (((i.effective_unit_price.or i.price).getD i.base_unit_price : ℚ)
            * i.quantity)) ∧
        r.line_discount = i.line_discount.getD 0)
      payload.items rec.items := by
  obtain ⟨ns, hn, hp, hi, hload⟩ := create_payment_ok_inv h
  obtain ⟨hfetch, hloadok⟩ := load_after_commit hwf hp hi
  refine ⟨ns, hn, ?_⟩
  have hcomb : Except.ok rec
      = Except.ok (hydrate_payment_record (create_payment fail now db payload).1
          (headerRowOf now db.next_payment_id payload)) :=
    h.symm.trans (hload.trans hloadok)
  injection hcomb with hrec
  have hitems : rec.items
      = (insertedRows db.next_payment_id db.next_item_id ns).map hydrateItemRow := by
    rw [hrec]
    exact hfetch
  rw [hitems, List.forall₂_map_right_iff]
  have h1 := normalizeItemsLoop_ok_forall2 (normalize_payment_items_ok_loop hn)
  have h2 := insertedRows_forall2 db.next_payment_id ns db.next_item_id
  have h3 := forall2_trans
    (T := fun i r => ∃ nn, normalizeItem i = .ok nn
      ∧ ∃ rid, r = itemRowOf db.next_payment_id rid nn)
    (fun a b c hab hbc => ⟨b, hab, hbc⟩) h1 h2
  refine List.Forall₂.imp ?_ h3
  rintro i r ⟨nn, hok, rid, hr⟩
  have hnn := normalizeItem_ok_eq hok
  subst hnn
  subst hr
  simp [hydrateItemRow, itemRowOf, normalizedOf]

/-- Witness for C10 on the example payload over the empty database. -/
theorem create_payment_roundtrip_witness :
    (db0.WF ∧ (create_payment none "t" db0 examplePayload).2 = .ok exampleRecord) ∧
    (∃ ns, normalize_payment_items examplePayload.items = .ok ns ∧
      List.Forall₂ (fun i r =>
        r.name = rustTrim i.name ∧
        r.effective_unit_price
          = (i.effective_unit_price.or i.price).getD i.base_unit_price ∧
        r.price = r.effective_unit_price ∧
        r.quantity = (if rustRound i.quantity ≤ 0 then 1 else rustRound i.quantity) ∧
        r.quantity_decimal = some i.quantity ∧
        r.line_subtotal = i.line_subtotal.getD (round_money
          (((i.effective_unit_price.or i.price).getD i.base_unit_price : ℚ)
            * i.quantity)) ∧
        r.line_discount = i.line_discount.getD 0)
      examplePayload.items exampleRecord.items) := by
  have hwf : db0.WF := by decide
  have hname : (rustTrim "Coffee").isEmpty = false := by decide
  have hname2 : rustTrim "Coffee" = "Coffee" := by decide
  have hinv : rustTrim "INV-1" = "INV-1" := by decide
  have hcash : rustTrim "Linh" = "Linh" := by decide
  have he1 : ("Coffee".isEmpty) = false := by decide
  have he2 : ("INV-1".isEmpty) = false := by decide
  have he3 : ("Linh".isEmpty) = false := by decide
  have hf1 : ((none : Option FailPoint) = some FailPoint.headerInsert) = False := by simp
  have hf2 : ((none : Option FailPoint) = some (FailPoint.itemInsert 0)) = False := by simp
  have hf3 : ((none : Option FailPoint) = some FailPoint.commit) = False := by simp
  have heval : (create_payment none "t" db0 examplePayload).2 = .ok exampleRecord := by
    norm_num [create_payment, normalize_payment_items, normalizeItemsLoop, normalizeItem,
      examplePayload, hname, hname2, hinv, hcash, he1, he2, he3, hf1, hf2, hf3,
      round_money, rustRound, MONEY_ROUNDING_MODE, db0, pendingOf, headerRowOf,
      insertItems, insertItemRow, itemRowOf, normalize_note, load_payment_by_id,
      fetch_payment_row, hydrate_payment_record, fetch_payment_items, hydrateItemRow,
      exampleRecord, List.find?, List.filter, Except.map]
  exact ⟨⟨hwf, heval⟩,
    create_payment_roundtrip none "t" db0 examplePayload exampleRecord hwf heval⟩

end HTXPos
